import Mathlib

/-!
Shallow embedding of the monitoring-and-dump orchestration core of
docker-ram-dumper: the current main (cmd/docker-ram-dumper/main.go, the
version tested by main_test.go and referred to below as part 000), the
legacy main kept in the repository, and the helpers package
(internal/_helpers). Go float64 arithmetic is modelled over the
rationals; machine integers are modelled as Nat and Int. Go strings are
modelled as lists of characters where character-level processing matters.
External effects (Docker API calls, command execution in the container,
sleeping, file copies) are modelled by explicit per-iteration environment
records and an event trace.
-/

namespace RamDumper

/-- Container memory statistics as decoded from the Docker stats JSON
response (struct DockerStats in helpers): usage and limit in bytes. -/
structure DockerStats where
  usage : ℕ
  limit : ℕ
deriving DecidableEq, Repr

/-- First return value of helpers.GetContainerMemoryUsage: the used
percentage, usage divided by limit times 100. -/
def memUsagePercent (st : DockerStats) : ℚ :=
  (st.usage : ℚ) / (st.limit : ℚ) * 100

/-- Second return value of helpers.GetContainerMemoryUsage: the container
memory LIMIT in whole megabytes (stats.MemoryStats.Limit / 1024 / 1024,
integer division). Note that this is the limit, not the used memory. -/
def memLimitMB (st : DockerStats) : ℕ :=
  st.limit / 1024 / 1024

/-- Used memory in whole megabytes as printed by
helpers.GetContainerMemoryUsage (stats.MemoryStats.Usage / 1024 / 1024). -/
def memUsedMB (st : DockerStats) : ℕ :=
  st.usage / 1024 / 1024

/-! Character-level models of the Go string functions used by main. -/

/-- Model of Go strings.ToLower at the character level. -/
def toLowerChars (cs : List Char) : List Char :=
  cs.map Char.toLower

/-- Does pat occur as an initial segment of l. -/
def charsHeadMatch : List Char → List Char → Bool
  | [], _ => true
  | _ :: _, [] => false
  | p :: ps, c :: cs => p = c && charsHeadMatch ps cs

/-- Model of Go strings.HasSuffix at the character level. -/
def endsWithChars (l suf : List Char) : Bool :=
  charsHeadMatch suf.reverse l.reverse

/-- Model of Go strings.TrimSuffix at the character level: drop the suffix
when present, otherwise return the list unchanged. -/
def trimSuffixChars (l suf : List Char) : List Char :=
  if endsWithChars l suf then l.take (l.length - suf.length) else l

/-- Model of Go strings.Contains at the character level: does pat occur
anywhere in l. -/
def charsContain (pat : List Char) : List Char → Bool
  | [] => pat.isEmpty
  | c :: cs => charsHeadMatch pat (c :: cs) || charsContain pat cs

/-- Model of Go strings.Contains on strings. -/
def containsSubstrGo (s pat : String) : Bool :=
  charsContain pat.data s.data

/-- Split a character list at every occurrence of a separator character. -/
def splitOnChar (sep : Char) : List Char → List (List Char)
  | [] => [[]]
  | c :: cs =>
    if c = sep then [] :: splitOnChar sep cs
    else
      match splitOnChar sep cs with
      | r :: rs => (c :: r) :: rs
      | [] => [[c]]

/-- Numeric value of a decimal digit character. -/
def digitVal (c : Char) : ℕ := c.toNat - 48

/-- Parse a run of decimal digit characters into a natural number,
returning none when a non-digit occurs. -/
def parseDigits : List Char → ℕ → Option ℕ
  | [], acc => some acc
  | c :: cs, acc =>
    if c.isDigit then parseDigits cs (acc * 10 + digitVal c) else none

/-- Unsigned part of the model of strconv.ParseFloat: integer digits with
an optional single decimal point and fractional digits. -/
def parseUnsigned (body : List Char) : Option ℚ :=
  match splitOnChar '.' body with
  | [ipart] =>
    if ipart.isEmpty then none
    else (parseDigits ipart 0).map fun n => (n : ℚ)
  | [ipart, fpart] =>
    if ipart.isEmpty && fpart.isEmpty then none
    else
      match (if ipart.isEmpty then some 0 else parseDigits ipart 0),
            (if fpart.isEmpty then some 0 else parseDigits fpart 0) with
      | some i, some f => some ((i : ℚ) + (f : ℚ) / (10 : ℚ) ^ fpart.length)
      | _, _ => none
  | _ => none

/-- Model of the Go standard library strconv.ParseFloat restricted to the
plain decimal forms relevant to threshold strings: optional sign, integer
digits, optional fractional part. Exponent, hexadecimal, underscore and
inf or NaN forms are not reachable from any claim and are not modelled.
Returns none exactly where ParseFloat reports a syntax error. -/
def parseFloatGo (cs : List Char) : Option ℚ :=
  match cs with
  | '-' :: body => (parseUnsigned body).map fun q => -q
  | '+' :: body => parseUnsigned body
  | body => parseUnsigned body

/-- Main line 62: the threshold counts as a percentage unless its
lowercased form ends in mb. -/
def thresholdIsPercentage (threshold : String) : Bool :=
  !(endsWithChars (toLowerChars threshold.data) ['m', 'b'])

/-- Main lines 63 and 64: the numeric part of the threshold string, the
lowercased characters with a percent sign and then an mb suffix trimmed. -/
def thresholdNumericChars (threshold : String) : List Char :=
  trimSuffixChars (trimSuffixChars (toLowerChars threshold.data) ['%']) ['m', 'b']

/-- Main line 65: thresholdValue with the Go convention that the ParseFloat
error is discarded, leaving the zero value on a syntax error. -/
def thresholdRawValue (threshold : String) : ℚ :=
  (parseFloatGo (thresholdNumericChars threshold)).getD 0

/-- The two threshold representations derived in main lines 102 to 109:
thresholdPercent is the final value of thresholdValue and
thresholdAbsoluteMB is totalMemoryThreshold. Neither field is ever
reassigned after this derivation in the source, so the derived record is
immutable for the rest of the run. -/
structure ThresholdDerived where
  thresholdPercent : ℚ
  thresholdAbsoluteMB : ℚ
deriving DecidableEq, Repr

/-- Main lines 102 to 109: derive both threshold representations from the
raw threshold string and totalMemory, the second return value of
GetContainerMemoryUsage (the limit in MB) sampled once at startup. -/
def deriveThreshold (threshold : String) (totalMemory : ℕ) : ThresholdDerived :=
  let v := thresholdRawValue threshold
  if thresholdIsPercentage threshold then
    { thresholdPercent := v, thresholdAbsoluteMB := (totalMemory : ℚ) * v / 100 }
  else
    { thresholdPercent := v / (totalMemory : ℚ) * 100, thresholdAbsoluteMB := v }

/-! Path helpers (models of Go path/filepath functions used by main). -/

/-- Model of Go filepath.Base restricted to nonempty slash paths: drop any
trailing slashes, then keep the part after the last slash. -/
def goPathBase (path : String) : String :=
  if path = "" then "."
  else
    let stripped := (path.data.reverse.dropWhile fun c => c = '/').reverse
    if stripped = [] then "/"
    else String.mk (stripped.reverse.takeWhile fun c => c ≠ '/').reverse

/-- Model of Go filepath.Join on two components, faithful for components
that are already clean (the Clean normalisation pass is not modelled). -/
def goPathJoin (a b : String) : String :=
  if a = "" then b else if b = "" then a else a ++ "/" ++ b

/-- Directory portion of a slash path: everything strictly before the last
slash (model of Go filepath.Dir restricted to clean paths containing a
slash). -/
def dirPart (p : String) : String :=
  String.mk ((p.data.reverse.dropWhile fun c => c ≠ '/').drop 1).reverse

/-! The dump-cycle data of main. -/

/-- File name part of main line 176: core_ pid _ timestamp .dmp with the
two numbers printed in decimal. -/
def dumpFileName (pid now : ℕ) : String :=
  "core_" ++ Nat.repr pid ++ "_" ++ Nat.repr now ++ ".dmp"

/-- Main line 176: dumpFile is dumpDirContainer, a slash, and the core
file name. -/
def containerDumpFile (dir : String) (pid now : ℕ) : String :=
  dir ++ "/" ++ dumpFileName pid now

/-- Main lines 185 to 191: the tool specific suffix applied to dumpFile
after a successful dump invocation. For procdump an underscore zero dot
pid suffix is appended; for dotMemory a dmw suffix is appended. -/
def applyToolSuffix (tool : String) (pid : ℕ) (dumpFile : String) : String :=
  let f := if tool = "procdump" then dumpFile ++ "_0." ++ Nat.repr pid else dumpFile
  if tool = "dotMemory" then f ++ ".dmw" else f

/-- One observable external interaction of a monitoring-loop iteration. -/
inductive Event where
  | deadlineCheck (elapsed : Bool)
  | sampleMemory
  | installTool (tool : String)
  | resolvePid
  | execMkdir (path : String)
  | runDumpTool (tool : String) (path : String)
  | copyOut (src : String) (dst : String)
  | sleepInterval
deriving DecidableEq, Repr

/-- Run configuration, as bound from the command line flags of main. The
threshold is carried in its derived percentage form (thresholdValue after
main lines 102 to 109). -/
structure Config where
  monitor : Bool
  dumpsCount : ℤ
  dumpDirContainer : String
  dumpDirHost : String
  dumpTool : String
  thresholdPercent : ℚ
deriving Repr

/-- Results the environment supplies to one iteration of the main loop:
the deadline state observed by the select statement at the top, the stats
sample (none models a GetContainerMemoryUsage error), and the outcomes of
the external steps the iteration may reach. -/
structure IterEnv where
  ctxDone : Bool
  memStats : Option DockerStats
  installOk : Bool
  pidFound : Option ℕ
  mkdirOk : Bool
  nowUnix : ℕ
  dumpOk : Bool
  copyOk : Bool
deriving Repr

/-- Result of one iteration of a monitoring loop: either the enclosing
function returned, or the loop proceeds to the next iteration, in both
cases with the resulting dump counter. -/
inductive StepResult where
  | terminated (dumps : ℕ)
  | next (dumps : ℕ)
deriving DecidableEq, Repr

/-- One iteration of the monitoring loop of the current main (part 000
lines 125 to 223), with every external interaction recorded in order as
an event. The deadline select is the first action of the iteration; an
elapsed deadline returns before any other action. Install failure sleeps
once and returns (line 154); PID failure returns at once (line 162); the
mkdir is issued with the literal path /tmp/dumps (line 168); a dump
invocation failure sleeps and continues (line 182); docker cp copies the
suffixed dump file onto the identical host path (line 197), and its
failure only logs; the counter then increments and the run returns once
it reaches dumpsCount (lines 206 to 210). -/
def mainIter (cfg : Config) (env : IterEnv) (dumpCounter : ℕ) :
    StepResult × List Event :=
  if env.ctxDone then (.terminated dumpCounter, [.deadlineCheck true])
  else
    match env.memStats with
    | none =>
      if !cfg.monitor then
        (.terminated dumpCounter, [.deadlineCheck false, .sampleMemory])
      else
        (.next dumpCounter, [.deadlineCheck false, .sampleMemory, .sleepInterval])
    | some st =>
      if memUsagePercent st ≥ cfg.thresholdPercent then
        if !env.installOk then
          (.terminated dumpCounter,
            [.deadlineCheck false, .sampleMemory, .installTool cfg.dumpTool,
             .sleepInterval])
        else
          match env.pidFound with
          | none =>
            (.terminated dumpCounter,
              [.deadlineCheck false, .sampleMemory, .installTool cfg.dumpTool,
               .resolvePid])
          | some pid =>
            if !env.mkdirOk then
              (.terminated dumpCounter,
                [.deadlineCheck false, .sampleMemory, .installTool cfg.dumpTool,
                 .resolvePid, .execMkdir "/tmp/dumps", .sleepInterval])
            else
              let dumpFile := containerDumpFile cfg.dumpDirContainer pid env.nowUnix
              if !env.dumpOk then
                (.next dumpCounter,
                  [.deadlineCheck false, .sampleMemory, .installTool cfg.dumpTool,
                   .resolvePid, .execMkdir "/tmp/dumps",
                   .runDumpTool cfg.dumpTool dumpFile, .sleepInterval])
              else
                let suffixed := applyToolSuffix cfg.dumpTool pid dumpFile
                let d := dumpCounter + 1
                if (d : ℤ) ≥ cfg.dumpsCount then
                  (.terminated d,
                    [.deadlineCheck false, .sampleMemory, .installTool cfg.dumpTool,
                     .resolvePid, .execMkdir "/tmp/dumps",
                     .runDumpTool cfg.dumpTool dumpFile, .copyOut suffixed suffixed])
                else
                  (.next d,
                    [.deadlineCheck false, .sampleMemory, .installTool cfg.dumpTool,
                     .resolvePid, .execMkdir "/tmp/dumps",
                     .runDumpTool cfg.dumpTool dumpFile, .copyOut suffixed suffixed,
                     .sleepInterval])
      else
        if !cfg.monitor then
          (.terminated dumpCounter, [.deadlineCheck false, .sampleMemory])
        else
          (.next dumpCounter, [.deadlineCheck false, .sampleMemory, .sleepInterval])

/-- Outcome of running a monitoring loop against a finite schedule of
iteration environments. -/
inductive RunOutcome where
  | finished (dumps : ℕ)
  | pending (dumps : ℕ)
deriving DecidableEq, Repr

/-- The loop of the current main driven by a finite schedule of iteration
environments: iterate until the loop returns or the schedule is
exhausted, concatenating the event traces. -/
def mainRun (cfg : Config) (dumpCounter : ℕ) :
    List IterEnv → RunOutcome × List Event
  | [] => (.pending dumpCounter, [])
  | env :: rest =>
    match mainIter cfg env dumpCounter with
    | (.terminated d, tr) => (.finished d, tr)
    | (.next d, tr) =>
      let r := mainRun cfg d rest
      (r.1, tr ++ r.2)

/-- One iteration of the legacy monitoring loop kept in the repository at
src/cmd/docker-ram-dumper/main.go (lines 72 to 153). It has no deadline
context. Install failure sleeps and continues (line 96); PID failure
sleeps and continues (line 103); mkdir failure returns (line 115); a dump
invocation failure sleeps and continues (line 125); the copy goes through
copyFromContainer with destination dumpDirHost joined with the base name
of dumpFile (lines 131 to 132); after the counter check, a run with the
monitor flag unset returns at the bottom of the iteration (line 149). -/
def legacyIter (cfg : Config) (env : IterEnv) (dumpCounter : ℕ) :
    StepResult × List Event :=
  match env.memStats with
  | none =>
    if !cfg.monitor then (.terminated dumpCounter, [.sampleMemory])
    else (.next dumpCounter, [.sampleMemory, .sleepInterval])
  | some st =>
    if memUsagePercent st ≥ cfg.thresholdPercent then
      if !env.installOk then
        (.next dumpCounter,
          [.sampleMemory, .installTool cfg.dumpTool, .sleepInterval])
      else
        match env.pidFound with
        | none =>
          (.next dumpCounter,
            [.sampleMemory, .installTool cfg.dumpTool, .resolvePid,
             .sleepInterval])
        | some pid =>
          if !env.mkdirOk then
            (.terminated dumpCounter,
              [.sampleMemory, .installTool cfg.dumpTool, .resolvePid,
               .execMkdir "/tmp/dumps"])
          else
            let dumpFile := containerDumpFile cfg.dumpDirContainer pid env.nowUnix
            if !env.dumpOk then
              (.next dumpCounter,
                [.sampleMemory, .installTool cfg.dumpTool, .resolvePid,
                 .execMkdir "/tmp/dumps", .runDumpTool cfg.dumpTool dumpFile,
                 .sleepInterval])
            else
              let src := dumpFile ++ "_0." ++ Nat.repr pid
              let dst := goPathJoin cfg.dumpDirHost (goPathBase dumpFile)
              let d := dumpCounter + 1
              if (d : ℤ) ≥ cfg.dumpsCount then
                (.terminated d,
                  [.sampleMemory, .installTool cfg.dumpTool, .resolvePid,
                   .execMkdir "/tmp/dumps", .runDumpTool cfg.dumpTool dumpFile,
                   .copyOut src dst])
              else if !cfg.monitor then
                (.terminated d,
                  [.sampleMemory, .installTool cfg.dumpTool, .resolvePid,
                   .execMkdir "/tmp/dumps", .runDumpTool cfg.dumpTool dumpFile,
                   .copyOut src dst])
              else
                (.next d,
                  [.sampleMemory, .installTool cfg.dumpTool, .resolvePid,
                   .execMkdir "/tmp/dumps", .runDumpTool cfg.dumpTool dumpFile,
                   .copyOut src dst, .sleepInterval])
    else
      if !cfg.monitor then (.terminated dumpCounter, [.sampleMemory])
      else (.next dumpCounter, [.sampleMemory, .sleepInterval])

/-! The createDotnetDump adapter (part 000 lines 323 to 375). -/

/-- Outcome of the busy-wait gate at the top of createDotnetDump. -/
inductive GateOutcome where
  | failed
  | issued (idx : ℕ)
  | waiting
deriving DecidableEq, Repr

/-- The busy-wait loop of createDotnetDump (part 000 lines 324 to 374):
re-sample memory each pass; a sampling error returns an error from the
adapter; otherwise the collect or attach command is issued as soon as the
comparison on line 330 passes, and the loop sleeps and re-samples while
it does not. The compared quantity is the SECOND return value of
GetContainerMemoryUsage, which is memLimitMB (the limit, despite being
bound to a variable named memoryUsageMB). The schedule is the finite
list of samples the environment will provide, and the returned index
counts the samples consumed before the command is issued. -/
def createDotnetDumpGate (totalMemoryThreshold : ℚ) :
    List (Option DockerStats) → ℕ → GateOutcome
  | [], _ => .waiting
  | none :: _, _ => .failed
  | some st :: rest, idx =>
    if (memLimitMB st : ℚ) ≥ totalMemoryThreshold then .issued idx
    else createDotnetDumpGate totalMemoryThreshold rest (idx + 1)

/-! The dotMemory retry loop (part 000 lines 334 to 361). -/

/-- Observable result of one issue of the dotMemory attach command: the
combined output and whether ExecInContainer returned an error. -/
structure AttemptResult where
  output : String
  isErr : Bool
deriving DecidableEq, Repr

/-- The retry condition on part 000 line 341: the output contains one of
the three known transient error markers. -/
def isTransientOutput (output : String) : Bool :=
  containsSubstrGo output "unrecognized address" ||
  containsSubstrGo output "Object reference not set to an instance of an object" ||
  containsSubstrGo output "Non-writeable path"

/-- The retry loop of part 000 lines 339 to 357: while the current output
contains a transient marker and retryCount is below the maximum of five,
re-issue the identical attach command and increment retryCount. The
responses function gives the result of the n-th issue of the command,
response 0 being the initial attempt of line 337. Returns the final
result together with the final retryCount. -/
def dotMemoryRetryLoop (responses : ℕ → AttemptResult)
    (cur : AttemptResult) (retryCount : ℕ) : AttemptResult × ℕ :=
  if h : isTransientOutput cur.output = true ∧ retryCount < 5 then
    dotMemoryRetryLoop responses (responses (retryCount + 1)) (retryCount + 1)
  else (cur, retryCount)
termination_by 5 - retryCount
decreasing_by omega

/-- The dotMemory branch of createDotnetDump after the gate: the initial
attach attempt followed by the bounded retry loop. The first component is
the output and error surfaced to the caller (part 000 line 361), the
second the number of retries performed. -/
def dotMemoryAttempts (responses : ℕ → AttemptResult) : AttemptResult × ℕ :=
  dotMemoryRetryLoop responses (responses 0) 0

/-! Trace bookkeeping. -/

/-- Number of completed dump cycles recorded in a trace: a copyOut event
is emitted exactly once per cycle whose dump invocation succeeded. -/
def countDumpCycles (tr : List Event) : ℕ :=
  (tr.filter fun e => match e with | .copyOut _ _ => true | _ => false).length

/-- Number of deadline checks recorded in a trace. -/
def countDeadlineChecks (tr : List Event) : ℕ :=
  (tr.filter fun e => match e with | .deadlineCheck _ => true | _ => false).length

/-- An iteration environment in which the deadline has not elapsed, the
sample is at or above the threshold, and every step up to the dump
invocation succeeds. The copy result is deliberately unconstrained:
extraction failure is only logged and does not block counting. -/
def GoodEnv (cfg : Config) (env : IterEnv) : Prop :=
  env.ctxDone = false ∧
  (∃ st, env.memStats = some st ∧ memUsagePercent st ≥ cfg.thresholdPercent) ∧
  env.installOk = true ∧ (∃ pid, env.pidFound = some pid) ∧
  env.mkdirOk = true ∧ env.dumpOk = true

/-! Claim theorems. -/

/-- C1: claimed, for dotnet-dump and dotMemory cycles, the invocation
routine issues the collect or attach command only after observing a
sample whose USED megabytes reach thresholdAbsoluteMB. The code instead
compares the second return value of GetContainerMemoryUsage, which is the
container limit in MB, so at the failing input (threshold 921.6 MB, being
90 percent of a 1 GiB limit, and a first sample using only 10 MiB) the
command is issued at the very first sample although the used megabytes
(10) are far below the threshold. This contradicts the variable name
memoryUsageMB and the log text of createDotnetDump itself, so the claim
matches the intent and the code is the slip. -/
theorem c1_gate_compares_limit_not_usage :
    createDotnetDumpGate (4608 / 5) [some ⟨10485760, 1073741824⟩] 0 =
        GateOutcome.issued 0 ∧
    memUsedMB ⟨10485760, 1073741824⟩ = 10 ∧
    ((memUsedMB ⟨10485760, 1073741824⟩ : ℚ)) < 4608 / 5 ∧
    memLimitMB ⟨10485760, 1073741824⟩ = 1024 := by
  have hused : memUsedMB ⟨10485760, 1073741824⟩ = 10 := by decide
  have hlim : memLimitMB ⟨10485760, 1073741824⟩ = 1024 := by decide
  have hgate : ((memLimitMB ⟨10485760, 1073741824⟩ : ℚ)) ≥ 4608 / 5 := by
    rw [hlim]; norm_num
  refine ⟨?_, hused, ?_, hlim⟩
  · simp [createDotnetDumpGate, hgate]
  · rw [hused]; norm_num

/-- C7: after the startup derivation the two threshold representations
are in sync. For a percentage input the percent field is the parsed value
and the absolute field is that value over 100 times total memory; for an
MB input the absolute field is the parsed value and the percent field is
that value over total memory times 100; in both cases (and also when the
numeric part fails to parse) the invariant thresholdAbsoluteMB equals
thresholdPercent over 100 times totalMemoryMB holds. The derived record
is never mutated afterwards in the source. -/
theorem c7_threshold_sync (s : String) (x : ℚ) (total : ℕ)
    (htotal : 0 < total) :
    (thresholdIsPercentage s = true →
      parseFloatGo (thresholdNumericChars s) = some x →
      (deriveThreshold s total).thresholdPercent = x ∧
      (deriveThreshold s total).thresholdAbsoluteMB = x / 100 * (total : ℚ)) ∧
    (thresholdIsPercentage s = false →
      parseFloatGo (thresholdNumericChars s) = some x →
      (deriveThreshold s total).thresholdAbsoluteMB = x ∧
      (deriveThreshold s total).thresholdPercent = x / (total : ℚ) * 100) ∧
    (deriveThreshold s total).thresholdAbsoluteMB =
      (deriveThreshold s total).thresholdPercent / 100 * (total : ℚ) := by
  have ht : ((total : ℚ)) ≠ 0 := by
    exact_mod_cast Nat.pos_iff_ne_zero.mp htotal
  refine ⟨?_, ?_, ?_⟩
  · intro hp hx
    constructor
    · simp [deriveThreshold, thresholdRawValue, hp, hx]
    · simp [deriveThreshold, thresholdRawValue, hp, hx]
      ring
  · intro hp hx
    constructor
    · simp [deriveThreshold, thresholdRawValue, hp, hx]
    · simp [deriveThreshold, thresholdRawValue, hp, hx]
  · rcases hp : thresholdIsPercentage s with _ | _
    · simp only [deriveThreshold, hp, Bool.false_eq_true, if_false]
      field_simp
      ring
    · simp only [deriveThreshold, hp, if_true]
      ring

/-- C8: a threshold string whose numeric part does not parse yields a
zero threshold rather than an error, the first-poll trigger comparison
usedPercent at least thresholdPercent then holds for any sample from a
container with a positive limit, and the very first loop iteration enters
the dump branch (witnessed by the install step being reached). -/
theorem c8_unparseable_threshold (s : String) (total : ℕ) (st : DockerStats)
    (cfg : Config) (env : IterEnv)
    (hbad : parseFloatGo (thresholdNumericChars s) = none)
    (hlim : 0 < st.limit)
    (hcfg : cfg.thresholdPercent = (deriveThreshold s total).thresholdPercent)
    (hdone : env.ctxDone = false) (hmem : env.memStats = some st) :
    (deriveThreshold s total).thresholdPercent = 0 ∧
    memUsagePercent st ≥ (deriveThreshold s total).thresholdPercent ∧
    Event.installTool cfg.dumpTool ∈ (mainIter cfg env 0).2 := by
  have hzero : (deriveThreshold s total).thresholdPercent = 0 := by
    simp only [deriveThreshold, thresholdRawValue, hbad, Option.getD_none]
    rcases hp : thresholdIsPercentage s with _ | _ <;> simp [hp]
  have hnn : memUsagePercent st ≥ (deriveThreshold s total).thresholdPercent := by
    rw [hzero]
    unfold memUsagePercent
    positivity
  refine ⟨hzero, hnn, ?_⟩
  have htrig : memUsagePercent st ≥ cfg.thresholdPercent := by
    rw [hcfg]; exact hnn
  simp only [mainIter, hdone, hmem, Bool.false_eq_true, if_false, ge_iff_le,
    if_pos htrig]
  rcases env.installOk with _ | _ <;>
    rcases env.pidFound with _ | pid <;>
      rcases env.mkdirOk with _ | _ <;>
        rcases env.dumpOk with _ | _ <;>
          (simp; try (split <;> simp))

/-- Witness for C7 at the concrete threshold string of 90 percent against
a total memory of 1024 MB. -/
theorem c7_threshold_sync_witness :
    (deriveThreshold "90%" 1024).thresholdPercent = 90 ∧
    (deriveThreshold "90%" 1024).thresholdAbsoluteMB = 90 / 100 * (1024 : ℚ) := by
  have h := c7_threshold_sync "90%" 90 1024 (by norm_num)
  exact h.1 (by decide) (by decide)

/-- Witness for C8 at the un-parseable threshold string abc percent: the
derived threshold is zero, an idle sample still triggers, and the first
iteration reaches the install step. -/
theorem c8_unparseable_threshold_witness :
    (deriveThreshold "abc%" 1024).thresholdPercent = 0 ∧
    memUsagePercent ⟨0, 1024⟩ ≥ (deriveThreshold "abc%" 1024).thresholdPercent ∧
    Event.installTool "procdump" ∈
      (mainIter
        ⟨false, 1, "/tmp/dumps", "/tmp/dumps", "procdump",
          (deriveThreshold "abc%" 1024).thresholdPercent⟩
        ⟨false, some ⟨0, 1024⟩, true, some 7, true, 5, true, true⟩ 0).2 :=
  c8_unparseable_threshold "abc%" 1024 ⟨0, 1024⟩ _ _
    (by decide) (by norm_num) rfl rfl rfl

/-- The dotMemory retry loop exits immediately when the current output is
not transient or the retry budget is exhausted. -/
lemma dotMemoryRetryLoop_stop (responses : ℕ → AttemptResult)
    (cur : AttemptResult) (r : ℕ)
    (h : isTransientOutput cur.output = false ∨ 5 ≤ r) :
    dotMemoryRetryLoop responses cur r = (cur, r) := by
  unfold dotMemoryRetryLoop
  rw [dif_neg]
  rintro ⟨h1, h2⟩
  rcases h with h | h
  · rw [h1] at h; exact Bool.noConfusion h
  · omega

/-- The dotMemory retry loop, started at attempt r, stops at the first
non-transient response k with k retries in total. -/
lemma dotMemoryRetryLoop_clean (responses : ℕ → AttemptResult) (k : ℕ)
    (hclean : isTransientOutput (responses k).output = false) :
    ∀ d r, k = r + d → k ≤ 5 →
    (∀ i, r ≤ i → i < k → isTransientOutput (responses i).output = true) →
    dotMemoryRetryLoop responses (responses r) r = (responses k, k) := by
  intro d
  induction d with
  | zero =>
    intro r hr _ _
    have : k = r := by omega
    subst this
    exact dotMemoryRetryLoop_stop responses _ _ (Or.inl hclean)
  | succ d ih =>
    intro r hr hk5 htrans
    have ht : isTransientOutput (responses r).output = true :=
      htrans r le_rfl (by omega)
    rw [dotMemoryRetryLoop, dif_pos ⟨ht, by omega⟩]
    exact ih (r + 1) (by omega) hk5 fun i h1 h2 => htrans i (by omega) h2

/-- The dotMemory retry loop with only transient responses stops when the
retry budget of five is exhausted, returning the sixth attempt. -/
lemma dotMemoryRetryLoop_all (responses : ℕ → AttemptResult)
    (htrans : ∀ i, i ≤ 5 → isTransientOutput (responses i).output = true) :
    ∀ d r, 5 = r + d →
    dotMemoryRetryLoop responses (responses r) r = (responses 5, 5) := by
  intro d
  induction d with
  | zero =>
    intro r hr
    have : r = 5 := by omega
    subst this
    exact dotMemoryRetryLoop_stop responses _ _ (Or.inr le_rfl)
  | succ d ih =>
    intro r hr
    have ht : isTransientOutput (responses r).output = true :=
      htrans r (by omega)
    rw [dotMemoryRetryLoop, dif_pos ⟨ht, by omega⟩]
    exact ih (r + 1) (by omega)

/-- C6: for a dotMemory invocation whose attempts produce transient
marker outputs, the attach command is re-issued exactly the minimum of
the observed consecutive transient failures and five times, with the
fixed cooldown loop of the source; if the first non-transient response
arrives at attempt k at most five, exactly k retries happen and that
response is surfaced, and if six consecutive attempts are all transient,
exactly five retries happen, the output and error of the sixth attempt
are returned to the caller, and no further retry is attempted. -/
theorem c6_dotmemory_retry (responses : ℕ → AttemptResult) :
    (∀ k : ℕ, k ≤ 5 →
      (∀ i, i < k → isTransientOutput (responses i).output = true) →
      isTransientOutput (responses k).output = false →
      dotMemoryAttempts responses = (responses k, k)) ∧
    ((∀ i : ℕ, i ≤ 5 → isTransientOutput (responses i).output = true) →
      dotMemoryAttempts responses = (responses 5, 5)) := by
  constructor
  · intro k hk htrans hclean
    exact dotMemoryRetryLoop_clean responses k hclean k 0 (by omega) hk
      fun i _ h2 => htrans i h2
  · intro htrans
    exact dotMemoryRetryLoop_all responses htrans 5 0 rfl

/-- Witness for C6: with every attempt reporting the unrecognized address
marker, the command is retried exactly five times and the sixth result is
surfaced. -/
theorem c6_dotmemory_retry_witness :
    dotMemoryAttempts (fun _ => ⟨"unrecognized address", true⟩) =
      (⟨"unrecognized address", true⟩, 5) :=
  (c6_dotmemory_retry fun _ => ⟨"unrecognized address", true⟩).2
    fun i _ => by decide

/-! String lemmas about directory parts of dump paths. -/

/-- Dropping characters up to the first slash of the tail: a slash-free
block followed by a slash is consumed exactly up to that slash. -/
lemma dropWhile_until_slash (l₁ l₂ : List Char) (h : ∀ c ∈ l₁, c ≠ '/') :
    List.dropWhile (fun c => c ≠ '/') (l₁ ++ '/' :: l₂) = '/' :: l₂ := by
  induction l₁ with
  | nil => simp [List.dropWhile]
  | cons c cs ih =>
    have hc : c ≠ '/' := h c (by simp)
    have hdec : decide (c ≠ '/') = true := by simpa using hc
    simp only [List.cons_append, List.dropWhile, hdec]
    exact ih fun x hx => h x (by simp [hx])

/-- The directory part of dir, slash, file is dir whenever the file part
is slash free. -/
lemma dirPart_concat (d f : String) (hf : ∀ c ∈ f.data, c ≠ '/') :
    dirPart (d ++ "/" ++ f) = d := by
  unfold dirPart
  have hdata : (d ++ "/" ++ f).data = d.data ++ '/' :: f.data := by
    simp [String.data_append]
  rw [hdata, List.reverse_append]
  have hrev : ('/' :: f.data).reverse = f.data.reverse ++ ['/'] := by
    simp
  rw [hrev, List.append_assoc, List.singleton_append,
    dropWhile_until_slash _ _ (fun c hc => hf c (List.mem_reverse.mp hc))]
  cases d
  simp

/-- Decimal digit characters are never a slash. -/
lemma digitChar_ne_slash (m : ℕ) (hm : m < 10) : Nat.digitChar m ≠ '/' := by
  interval_cases m <;> decide

/-- The core digit accumulator of Nat.repr only ever emits digit
characters, hence never a slash. -/
lemma toDigitsCore_ne_slash (fuel : ℕ) :
    ∀ (n : ℕ) (ds : List Char), (∀ c ∈ ds, c ≠ '/') →
      ∀ c ∈ Nat.toDigitsCore 10 fuel n ds, c ≠ '/' := by
  induction fuel with
  | zero =>
    intro n ds hds
    simpa [Nat.toDigitsCore] using hds
  | succ fuel ih =>
    intro n ds hds
    have hcons : ∀ c ∈ Nat.digitChar (n % 10) :: ds, c ≠ '/' := by
      intro c hc
      rcases List.mem_cons.mp hc with rfl | hc
      · exact digitChar_ne_slash _ (Nat.mod_lt _ (by norm_num))
      · exact hds c hc
    simp only [Nat.toDigitsCore]
    split
    · exact hcons
    · exact ih _ _ hcons

/-- The decimal representation of a natural number contains no slash. -/
lemma repr_ne_slash (n : ℕ) : ∀ c ∈ (Nat.repr n).data, c ≠ '/' :=
  toDigitsCore_ne_slash (n + 1) n [] (by simp)

/-- The core dump file name contains no slash. -/
lemma dumpFileName_ne_slash (pid now : ℕ) :
    ∀ c ∈ (dumpFileName pid now).data, c ≠ '/' := by
  intro c hc
  unfold dumpFileName at hc
  simp only [String.data_append, List.mem_append] at hc
  have h₁ : ∀ c ∈ ("core_" : String).data, c ≠ '/' := by decide
  have h₂ : ∀ c ∈ ("_" : String).data, c ≠ '/' := by decide
  have h₃ : ∀ c ∈ (".dmp" : String).data, c ≠ '/' := by decide
  rcases hc with (((hc | hc) | hc) | hc) | hc
  · exact h₁ c hc
  · exact repr_ne_slash pid c hc
  · exact h₂ c hc
  · exact repr_ne_slash now c hc
  · exact h₃ c hc

/-- The directory the dump file is written into, in the sense of the
directory part of its path, is exactly dumpDirContainer. -/
lemma dirPart_containerDumpFile (dir : String) (pid now : ℕ) :
    dirPart (containerDumpFile dir pid now) = dir :=
  dirPart_concat dir _ (dumpFileName_ne_slash pid now)

/-! Per-iteration and per-run structural lemmas. -/

/-- Splitting dump-cycle counting over concatenated traces. -/
lemma countDumpCycles_append (a b : List Event) :
    countDumpCycles (a ++ b) = countDumpCycles a + countDumpCycles b := by
  simp [countDumpCycles, List.filter_append]

/-- A good iteration increments the counter by one, performs exactly one
deadline check (its first action) and one complete dump cycle, and
terminates exactly when the incremented counter reaches dumpsCount. -/
lemma mainIter_good (cfg : Config) (env : IterEnv) (c : ℕ) (h : GoodEnv cfg env) :
    (mainIter cfg env c).1 =
      (if cfg.dumpsCount ≤ ((c + 1 : ℕ) : ℤ) then StepResult.terminated (c + 1)
       else StepResult.next (c + 1)) ∧
    countDumpCycles (mainIter cfg env c).2 = 1 ∧
    countDeadlineChecks (mainIter cfg env c).2 = 1 ∧
    (mainIter cfg env c).2.head? = some (.deadlineCheck false) ∧
    ∃ p q, Event.copyOut p q ∈ (mainIter cfg env c).2 := by
  obtain ⟨hd, ⟨st, hst, htrig⟩, hi, ⟨pid, hp⟩, hm, hdu⟩ := h
  simp only [mainIter, hd, hst, hi, hp, hm, hdu, htrig, Bool.not_true,
    Bool.false_eq_true, if_false, ge_iff_le, if_true, ite_true]
  split <;>
    exact ⟨rfl, by simp [countDumpCycles], by simp [countDeadlineChecks], rfl,
      applyToolSuffix cfg.dumpTool pid
        (containerDumpFile cfg.dumpDirContainer pid env.nowUnix),
      applyToolSuffix cfg.dumpTool pid
        (containerDumpFile cfg.dumpDirContainer pid env.nowUnix),
      by simp⟩

/-- Driving the loop through a schedule of good iterations whose length
matches the remaining dump budget finishes with the counter advanced by
the schedule length and one dump cycle per iteration. -/
lemma mainRun_good_aux (cfg : Config) :
    ∀ (envs : List IterEnv) (c : ℕ), envs ≠ [] →
      (∀ env ∈ envs, GoodEnv cfg env) →
      ((c : ℤ) + envs.length = cfg.dumpsCount) →
      (mainRun cfg c envs).1 = RunOutcome.finished (c + envs.length) ∧
      countDumpCycles (mainRun cfg c envs).2 = envs.length := by
  intro envs
  induction envs with
  | nil => intro c hne; exact absurd rfl hne
  | cons env rest ih =>
    intro c _ hgood hsum
    have hg := mainIter_good cfg env c (hgood env (by simp))
    rcases hpair : mainIter cfg env c with ⟨res, tr⟩
    rw [hpair] at hg
    obtain ⟨hres, hcnt, -, -, -⟩ := hg
    by_cases hrest : rest = []
    · subst hrest
      have hc : cfg.dumpsCount ≤ ((c + 1 : ℕ) : ℤ) := by
        simp only [List.length_cons, List.length_nil] at hsum
        push_cast at hsum ⊢
        omega
      rw [if_pos hc] at hres
      simp only at hres
      subst hres
      simp only [mainRun, hpair]
      exact ⟨by simp, by simpa [countDumpCycles] using hcnt⟩
    · have hlen : 1 ≤ rest.length := by
        cases rest
        · exact absurd rfl hrest
        · simp
      have hc : ¬ cfg.dumpsCount ≤ ((c + 1 : ℕ) : ℤ) := by
        simp only [List.length_cons] at hsum
        push_cast at hsum ⊢
        omega
      rw [if_neg hc] at hres
      simp only at hres
      subst hres
      have hrec := ih (c + 1) hrest (fun e he => hgood e (by simp [he]))
        (by simp only [List.length_cons] at hsum; push_cast at hsum ⊢; omega)
      simp only [mainRun, hpair]
      constructor
      · rw [hrec.1]
        congr 1
        simp only [List.length_cons]
        omega
      · rw [countDumpCycles_append]
        simp only at hcnt
        rw [hcnt, hrec.2]
        simp only [List.length_cons]
        omega

/-- Every mkdir issued by an iteration names the literal path /tmp/dumps,
whatever the configuration says. -/
lemma mainIter_mkdir_shape (cfg : Config) (env : IterEnv) (c : ℕ) :
    ∀ p, Event.execMkdir p ∈ (mainIter cfg env c).2 → p = "/tmp/dumps" := by
  intro p hp
  unfold mainIter at hp
  repeat' split at hp
  all_goals try (rw [apply_ite Prod.snd] at hp; split at hp)
  all_goals simp_all

/-- Every dump invocation issued by an iteration targets a file whose
directory part is dumpDirContainer. -/
lemma mainIter_dump_dir (cfg : Config) (env : IterEnv) (c : ℕ) :
    ∀ t p, Event.runDumpTool t p ∈ (mainIter cfg env c).2 →
      dirPart p = cfg.dumpDirContainer := by
  intro t p hp
  unfold mainIter at hp
  repeat' split at hp
  all_goals try (rw [apply_ite Prod.snd] at hp; split at hp)
  all_goals simp_all [dirPart_containerDumpFile]

/-- Every event of a run trace belongs to the trace of some scheduled
iteration. -/
lemma mainRun_trace_mem (cfg : Config) :
    ∀ (envs : List IterEnv) (c : ℕ) (e : Event), e ∈ (mainRun cfg c envs).2 →
      ∃ env ∈ envs, ∃ d, e ∈ (mainIter cfg env d).2 := by
  intro envs
  induction envs with
  | nil => intro c e he; simp [mainRun] at he
  | cons env rest ih =>
    intro c e he
    rcases hpair : mainIter cfg env c with ⟨res, tr⟩
    cases res with
    | terminated d =>
      simp only [mainRun, hpair] at he
      exact ⟨env, by simp, c, by rw [hpair]; exact he⟩
    | next d =>
      simp only [mainRun, hpair, List.mem_append] at he
      rcases he with he | he
      · exact ⟨env, by simp, c, by rw [hpair]; exact he⟩
      · obtain ⟨env2, h1, d2, h2⟩ := ih d e he
        exact ⟨env2, by simp [h1], d2, h2⟩

/-- Every iteration opens with its single deadline check, and an elapsed
deadline makes the iteration return immediately with no other action. -/
lemma mainIter_deadline_shape (cfg : Config) (env : IterEnv) (c : ℕ) :
    (mainIter cfg env c).2.head? = some (.deadlineCheck env.ctxDone) ∧
    countDeadlineChecks (mainIter cfg env c).2 = 1 ∧
    (env.ctxDone = true →
      mainIter cfg env c = (.terminated c, [.deadlineCheck true])) := by
  refine ⟨?_, ?_, ?_⟩ <;> (
    unfold mainIter
    repeat' split
    all_goals try (rw [apply_ite Prod.snd]; split)
    all_goals simp_all [countDeadlineChecks])

/-- Counterexample for C2: at a configuration whose host dump directory
is /host, the successful cycle extracts to the suffixed container dump
path itself (docker cp with identical source and destination, main line
197), which differs from dumpDirHost joined with the basename of the
suffixed path as the claim states. -/
theorem c2_counterexample :
    (mainIter ⟨false, 1, "/tmp/dumps", "/host", "procdump", 0⟩
      ⟨false, some ⟨0, 1024⟩, true, some 7, true, 5, true, true⟩ 0).2 =
      [.deadlineCheck false, .sampleMemory, .installTool "procdump", .resolvePid,
       .execMkdir "/tmp/dumps", .runDumpTool "procdump" "/tmp/dumps/core_7_5.dmp",
       .copyOut "/tmp/dumps/core_7_5.dmp_0.7" "/tmp/dumps/core_7_5.dmp_0.7"] ∧
    goPathJoin "/host" (goPathBase "/tmp/dumps/core_7_5.dmp_0.7") =
      "/host/core_7_5.dmp_0.7" ∧
    ("/tmp/dumps/core_7_5.dmp_0.7" : String) ≠ "/host/core_7_5.dmp_0.7" := by
  refine ⟨?_, by decide, by decide⟩
  have htrig : memUsagePercent ⟨0, 1024⟩ ≥ (0 : ℚ) := by norm_num [memUsagePercent]
  simp only [mainIter, htrig, ge_iff_le, ite_true, if_true]
  norm_num
  decide

/-- C2 as amended: in every cycle whose invocation succeeds, the
extraction destination passed to docker cp equals the suffixed container
dump path itself; the value dumpDirHost joined with the basename is
computed and logged by main but is not the copy destination. -/
theorem c2_amended_copy_destination (cfg : Config) (env : IterEnv) (c : ℕ)
    (st : DockerStats) (pid : ℕ)
    (hdone : env.ctxDone = false) (hmem : env.memStats = some st)
    (htrig : memUsagePercent st ≥ cfg.thresholdPercent)
    (hinst : env.installOk = true) (hpid : env.pidFound = some pid)
    (hmk : env.mkdirOk = true) (hdump : env.dumpOk = true) :
    Event.copyOut
        (applyToolSuffix cfg.dumpTool pid
          (containerDumpFile cfg.dumpDirContainer pid env.nowUnix))
        (applyToolSuffix cfg.dumpTool pid
          (containerDumpFile cfg.dumpDirContainer pid env.nowUnix)) ∈
      (mainIter cfg env c).2 ∧
    (∀ p q, Event.copyOut p q ∈ (mainIter cfg env c).2 → q = p) := by
  constructor
  · simp only [mainIter, hdone, hmem, htrig, hinst, hpid, hmk, hdump,
      Bool.not_true, Bool.false_eq_true, if_false, ge_iff_le, if_true, ite_true]
    split <;> simp
  · intro p q hpq
    unfold mainIter at hpq
    repeat' split at hpq
    all_goals try (rw [apply_ite Prod.snd] at hpq; split at hpq)
    all_goals simp_all

/-- Witness for the amended C2 at a concrete triggered cycle. -/
theorem c2_amended_witness :
    Event.copyOut
        (applyToolSuffix "procdump" 7 (containerDumpFile "/tmp/dumps" 7 5))
        (applyToolSuffix "procdump" 7 (containerDumpFile "/tmp/dumps" 7 5)) ∈
      (mainIter ⟨false, 1, "/tmp/dumps", "/host", "procdump", 0⟩
        ⟨false, some ⟨0, 1024⟩, true, some 7, true, 5, true, true⟩ 0).2 := by
  have h := c2_amended_copy_destination
    ⟨false, 1, "/tmp/dumps", "/host", "procdump", 0⟩
    ⟨false, some ⟨0, 1024⟩, true, some 7, true, 5, true, true⟩ 0
    ⟨0, 1024⟩ 7 rfl rfl (by norm_num [memUsagePercent]) rfl rfl rfl rfl
  exact h.1

/-- Counterexample for C3: with continuous monitoring enabled and the
procdump tool, an install failure in the first triggered cycle ends the
whole run (main line 154 returns after the sleep), even though a second,
fully successful iteration environment was still available. -/
theorem c3_counterexample :
    (mainRun ⟨true, 1, "/tmp/dumps", "/tmp/dumps", "procdump", 0⟩ 0
      [⟨false, some ⟨0, 1024⟩, false, some 7, true, 5, true, true⟩,
       ⟨false, some ⟨0, 1024⟩, true, some 7, true, 6, true, true⟩]).1 =
      RunOutcome.finished 0 := by
  have htrig : memUsagePercent ⟨0, 1024⟩ ≥ (0 : ℚ) := by norm_num [memUsagePercent]
  simp only [mainRun, mainIter, htrig, ge_iff_le, ite_true, if_true]
  norm_num

/-- C3 as amended: in the current main a tool-installation failure in a
triggered cycle sleeps one interval and then terminates the run whatever
the monitor flag and the tool; the sleep-and-retry behaviour exists only
in the legacy main kept at src/cmd/docker-ram-dumper/main.go, whose loop
continues to the next poll after an install failure. -/
theorem c3_amended_install_failure (cfg : Config) (env : IterEnv) (c : ℕ)
    (st : DockerStats)
    (hdone : env.ctxDone = false) (hmem : env.memStats = some st)
    (htrig : memUsagePercent st ≥ cfg.thresholdPercent)
    (hinst : env.installOk = false) :
    (mainIter cfg env c).1 = StepResult.terminated c ∧
    (mainIter cfg env c).2 =
      [.deadlineCheck false, .sampleMemory, .installTool cfg.dumpTool,
       .sleepInterval] ∧
    (legacyIter cfg env c).1 = StepResult.next c := by
  refine ⟨?_, ?_, ?_⟩ <;>
    simp [mainIter, legacyIter, hdone, hmem, htrig, hinst]

/-- Witness for the amended C3 at a concrete failing install with the
monitor flag set. -/
theorem c3_amended_witness :
    (mainIter ⟨true, 1, "/tmp/dumps", "/tmp/dumps", "procdump", 0⟩
      ⟨false, some ⟨0, 1024⟩, false, some 7, true, 5, true, true⟩ 0).1 =
      StepResult.terminated 0 ∧
    (legacyIter ⟨true, 1, "/tmp/dumps", "/tmp/dumps", "procdump", 0⟩
      ⟨false, some ⟨0, 1024⟩, false, some 7, true, 5, true, true⟩ 0).1 =
      StepResult.next 0 := by
  have h := c3_amended_install_failure
    ⟨true, 1, "/tmp/dumps", "/tmp/dumps", "procdump", 0⟩
    ⟨false, some ⟨0, 1024⟩, false, some 7, true, 5, true, true⟩ 0
    ⟨0, 1024⟩ rfl rfl (by norm_num [memUsagePercent]) rfl
  exact ⟨h.1, h.2.2⟩

/-- C4: with every sample at or above the threshold, every cycle step
succeeding, a live deadline context, and a configured dump count N of at
least one, the run of the current main performs exactly N successful dump
cycles and then terminates; the monitor flag is arbitrary, so this holds
with continuous monitoring both enabled and disabled. -/
theorem c4_dump_count_limit (cfg : Config) (envs : List IterEnv) (N : ℕ)
    (hN : 1 ≤ N) (hcount : cfg.dumpsCount = (N : ℤ)) (hlen : envs.length = N)
    (hgood : ∀ env ∈ envs, GoodEnv cfg env) :
    (mainRun cfg 0 envs).1 = RunOutcome.finished N ∧
    countDumpCycles (mainRun cfg 0 envs).2 = N := by
  have hne : envs ≠ [] := by
    intro h
    subst h
    simp at hlen
    omega
  have h := mainRun_good_aux cfg envs 0 hne hgood
    (by rw [hcount, hlen]; push_cast; ring)
  rw [hlen] at h
  simpa using h

/-- Witness for C4 with two good iterations against a dump count of two,
with the monitor flag set. -/
theorem c4_dump_count_limit_witness :
    (mainRun ⟨true, 2, "/tmp/dumps", "/tmp/dumps", "procdump", 0⟩ 0
      [⟨false, some ⟨0, 1024⟩, true, some 7, true, 5, true, true⟩,
       ⟨false, some ⟨0, 1024⟩, true, some 7, true, 6, true, true⟩]).1 =
      RunOutcome.finished 2 ∧
    countDumpCycles
      (mainRun ⟨true, 2, "/tmp/dumps", "/tmp/dumps", "procdump", 0⟩ 0
        [⟨false, some ⟨0, 1024⟩, true, some 7, true, 5, true, true⟩,
         ⟨false, some ⟨0, 1024⟩, true, some 7, true, 6, true, true⟩]).2 = 2 := by
  refine c4_dump_count_limit _ _ 2 (by norm_num) rfl ?_ ?_
  · rfl
  intro env henv
  have hst : memUsagePercent ⟨0, 1024⟩ ≥ (0 : ℚ) := by norm_num [memUsagePercent]
  simp only [List.mem_cons, List.not_mem_nil, or_false] at henv
  rcases henv with rfl | rfl
  · exact ⟨rfl, ⟨⟨0, 1024⟩, rfl, hst⟩, rfl, ⟨7, rfl⟩, rfl, rfl⟩
  · exact ⟨rfl, ⟨⟨0, 1024⟩, rfl, hst⟩, rfl, ⟨7, rfl⟩, rfl, rfl⟩

/-- Counterexample for C5: with continuous monitoring enabled, a PID
resolution failure in the first triggered cycle ends the whole run (main
line 162 returns), even though a second, fully successful iteration
environment was still available; the claim states this case is non-fatal
with a sleep and retry. -/
theorem c5_counterexample :
    (mainRun ⟨true, 1, "/tmp/dumps", "/tmp/dumps", "procdump", 0⟩ 0
      [⟨false, some ⟨0, 1024⟩, true, none, true, 5, true, true⟩,
       ⟨false, some ⟨0, 1024⟩, true, some 7, true, 6, true, true⟩]).1 =
      RunOutcome.finished 0 := by
  have htrig : memUsagePercent ⟨0, 1024⟩ ≥ (0 : ℚ) := by norm_num [memUsagePercent]
  simp only [mainRun, mainIter, htrig, ge_iff_le, ite_true, if_true]
  norm_num

/-- C5 as amended: in the current main a PID resolution failure in a
triggered cycle terminates the run immediately whatever the monitor flag;
in the legacy main it sleeps and continues to the next poll whatever the
monitor flag, so it is not fatal in single-shot mode there either. -/
theorem c5_amended_pid_failure (cfg : Config) (env : IterEnv) (c : ℕ)
    (st : DockerStats)
    (hdone : env.ctxDone = false) (hmem : env.memStats = some st)
    (htrig : memUsagePercent st ≥ cfg.thresholdPercent)
    (hinst : env.installOk = true) (hpid : env.pidFound = none) :
    (mainIter cfg env c).1 = StepResult.terminated c ∧
    (legacyIter cfg env c).1 = StepResult.next c := by
  constructor <;> simp [mainIter, legacyIter, hdone, hmem, htrig, hinst, hpid]

/-- Witness for the amended C5 at a concrete failing PID resolution with
the monitor flag set. -/
theorem c5_amended_witness :
    (mainIter ⟨true, 1, "/tmp/dumps", "/tmp/dumps", "procdump", 0⟩
      ⟨false, some ⟨0, 1024⟩, true, none, true, 5, true, true⟩ 0).1 =
      StepResult.terminated 0 ∧
    (legacyIter ⟨true, 1, "/tmp/dumps", "/tmp/dumps", "procdump", 0⟩
      ⟨false, some ⟨0, 1024⟩, true, none, true, 5, true, true⟩ 0).1 =
      StepResult.next 0 :=
  c5_amended_pid_failure
    ⟨true, 1, "/tmp/dumps", "/tmp/dumps", "procdump", 0⟩
    ⟨false, some ⟨0, 1024⟩, true, none, true, 5, true, true⟩ 0
    ⟨0, 1024⟩ rfl rfl (by norm_num [memUsagePercent]) rfl rfl

/-- C9: the global deadline is observed exactly once per outer loop
iteration, as the very first action of the iteration and never during the
in-flight cycle; when the deadline state is already elapsed at the check
the iteration returns at once, and when it elapses only during a
successful cycle the run still completes that cycle in full (including
the export step) and terminates only at the top-of-loop check of the next
iteration, so termination latency can exceed the deadline by up to one
full cycle. -/
theorem c9_deadline_coarse_cancellation :
    (∀ (cfg : Config) (env : IterEnv) (c : ℕ),
      (mainIter cfg env c).2.head? = some (.deadlineCheck env.ctxDone) ∧
      countDeadlineChecks (mainIter cfg env c).2 = 1 ∧
      (env.ctxDone = true →
        mainIter cfg env c = (.terminated c, [.deadlineCheck true]))) ∧
    (∀ (cfg : Config) (env₁ env₂ : IterEnv) (c : ℕ),
      env₂.ctxDone = true → GoodEnv cfg env₁ →
      ¬ cfg.dumpsCount ≤ ((c + 1 : ℕ) : ℤ) →
      (mainRun cfg c [env₁, env₂]).1 = RunOutcome.finished (c + 1) ∧
      (mainRun cfg c [env₁, env₂]).2 =
        (mainIter cfg env₁ c).2 ++ [.deadlineCheck true] ∧
      ∃ p q, Event.copyOut p q ∈ (mainIter cfg env₁ c).2) := by
  constructor
  · exact mainIter_deadline_shape
  · intro cfg env₁ env₂ c hdone2 hgood hc
    have hg := mainIter_good cfg env₁ c hgood
    have h2 := (mainIter_deadline_shape cfg env₂ (c + 1)).2.2 hdone2
    rcases hpair : mainIter cfg env₁ c with ⟨res, tr⟩
    rw [hpair] at hg
    obtain ⟨hres, -, -, -, hcopy⟩ := hg
    rw [if_neg hc] at hres
    simp only at hres hcopy
    subst hres
    refine ⟨?_, ?_, hcopy⟩
    · simp [mainRun, hpair, h2]
    · simp [mainRun, hpair, h2]

/-- Witness for C9: a run whose deadline elapses right after a first good
cycle still finishes that cycle, terminating with one dump at the next
check. -/
theorem c9_deadline_witness :
    (mainRun ⟨true, 5, "/tmp/dumps", "/tmp/dumps", "procdump", 0⟩ 0
      [⟨false, some ⟨0, 1024⟩, true, some 7, true, 5, true, true⟩,
       ⟨true, none, true, none, true, 0, true, true⟩]).1 =
      RunOutcome.finished 1 :=
  (c9_deadline_coarse_cancellation.2
    ⟨true, 5, "/tmp/dumps", "/tmp/dumps", "procdump", 0⟩
    ⟨false, some ⟨0, 1024⟩, true, some 7, true, 5, true, true⟩
    ⟨true, none, true, none, true, 0, true, true⟩ 0 rfl
    ⟨rfl, ⟨⟨0, 1024⟩, rfl, by norm_num [memUsagePercent]⟩, rfl, ⟨7, rfl⟩, rfl, rfl⟩
    (by norm_num)).1

/-- C10: in every run of the current main, every directory created inside
the container is the literal /tmp/dumps independent of the configured
dumpdir-container, while every dump file path handed to the dump tool has
directory part equal to dumpDirContainer; hence whenever dumpDirContainer
differs from /tmp/dumps, the directory the dump file is written into is
never one the tool created. -/
theorem c10_mkdir_literal_path (cfg : Config) (envs : List IterEnv) (c : ℕ) :
    (∀ p, Event.execMkdir p ∈ (mainRun cfg c envs).2 → p = "/tmp/dumps") ∧
    (∀ t p, Event.runDumpTool t p ∈ (mainRun cfg c envs).2 →
      dirPart p = cfg.dumpDirContainer) ∧
    (cfg.dumpDirContainer ≠ "/tmp/dumps" →
      ∀ t p q, Event.runDumpTool t p ∈ (mainRun cfg c envs).2 →
        Event.execMkdir q ∈ (mainRun cfg c envs).2 → dirPart p ≠ q) := by
  have hmk : ∀ p, Event.execMkdir p ∈ (mainRun cfg c envs).2 →
      p = "/tmp/dumps" := by
    intro p hp
    obtain ⟨env, -, d, hmem⟩ := mainRun_trace_mem cfg envs c _ hp
    exact mainIter_mkdir_shape cfg env d p hmem
  have hdd : ∀ t p, Event.runDumpTool t p ∈ (mainRun cfg c envs).2 →
      dirPart p = cfg.dumpDirContainer := by
    intro t p hp
    obtain ⟨env, -, d, hmem⟩ := mainRun_trace_mem cfg envs c _ hp
    exact mainIter_dump_dir cfg env d t p hmem
  refine ⟨hmk, hdd, ?_⟩
  intro hne t p q h1 h2
  rw [hdd t p h1, hmk q h2]
  exact hne

/-- Witness for C10: a run configured with dump directory /data writes
its dump file into /data while its only mkdir targets /tmp/dumps. -/
theorem c10_mkdir_witness :
    dirPart "/data/core_7_5.dmp" = "/data" ∧
    dirPart "/data/core_7_5.dmp" ≠ "/tmp/dumps" := by
  have htrig : memUsagePercent ⟨0, 1024⟩ ≥ (0 : ℚ) := by norm_num [memUsagePercent]
  have hmem : Event.runDumpTool "procdump" "/data/core_7_5.dmp" ∈
      (mainRun ⟨false, 1, "/data", "/tmp/dumps", "procdump", 0⟩ 0
        [⟨false, some ⟨0, 1024⟩, true, some 7, true, 5, true, true⟩]).2 := by
    simp only [mainRun, mainIter, htrig, ge_iff_le, ite_true, if_true]
    norm_num
    decide
  have hmk : Event.execMkdir "/tmp/dumps" ∈
      (mainRun ⟨false, 1, "/data", "/tmp/dumps", "procdump", 0⟩ 0
        [⟨false, some ⟨0, 1024⟩, true, some 7, true, 5, true, true⟩]).2 := by
    simp only [mainRun, mainIter, htrig, ge_iff_le, ite_true, if_true]
    norm_num
  have h := c10_mkdir_literal_path
    ⟨false, 1, "/data", "/tmp/dumps", "procdump", 0⟩
    [⟨false, some ⟨0, 1024⟩, true, some 7, true, 5, true, true⟩] 0
  exact ⟨h.2.1 "procdump" _ hmem, h.2.2 (by decide) "procdump" _ _ hmem hmk⟩

end RamDumper
